import Mathlib

/-!
Shallow embedding of the candidate-matching pipeline of this repository.

The repository contains two near-duplicate implementations of the core
hybrid-search logic: a Flask service in new_main.py and a FastAPI service in
api.py (the Streamlit page pages/Search_candidates.py duplicates the api.py
variant).  External collaborators (the similarity-search backend, the
text-generation service, the blob store, the spreadsheet) are modelled as
explicit inputs: fallible calls are values of an Except type, similarity
scores are rationals, and the per-request hit lists are plain lists.

Namespace NewMain embeds new_main.py, namespace Api embeds api.py, and
namespace UploadBatch embeds pages/upload_batch.py.
-/

/-- Lower-casing of a string (Python str.lower on the ASCII range, via
Char.toLower), by structural recursion over the character list so that
concrete instances evaluate inside the kernel. -/
def lowerStr (s : String) : String :=
  String.mk (s.toList.map Char.toLower)

/-- Strip of leading and trailing whitespace from a character list. -/
def trimChars (l : List Char) : List Char :=
  ((l.dropWhile Char.isWhitespace).reverse.dropWhile Char.isWhitespace).reverse

/-- Strip of leading and trailing whitespace (Python str.strip), by
structural recursion over the character list. -/
def trimStr (s : String) : String :=
  String.mk (trimChars s.toList)

/-- One hit returned by a single-namespace similarity query: candidate
identity, backend score, and the stored metadata fields used by the join
(location, experience).  The current_role and text fields returned by the
backend do not participate in any property below and are omitted. -/
structure Hit where
  id : String
  score : ℚ
  location : String
  experience : Int
deriving DecidableEq

/-- Experience range constraint of a Pinecone metadata filter, mirroring the
dictionaries built in the sources: lte n is \x7b$lte: n\x7d, gtLt lo hi is
\x7b$gt: lo, $lt: hi\x7d, gte n is \x7b$gte: n\x7d, gt n is \x7b$gt: n\x7d. -/
inductive ExpConstraint where
  | lte (n : Int)
  | gtLt (lo hi : Int)
  | gte (n : Int)
  | gt (n : Int)
deriving DecidableEq

/-- Metadata filter: a location equality constraint plus an optional
experience range constraint (none means the experience key is absent). -/
structure SearchFilter where
  location : String
  experience : Option ExpConstraint
deriving DecidableEq

/-- A row of the merged DataFrame in new_main.py when both hit lists are
non-empty: both component scores plus the derived combined score. -/
structure MergedRow where
  id : String
  location : String
  experience : Int
  vec_score : ℚ
  sp_score : ℚ
  combined_score : ℚ
deriving DecidableEq

/-- A row of the DataFrame returned by run_candidate_search in new_main.py.
Because the fallback branches return the one-sided DataFrames unchanged, a
returned row may lack the vec_score, sp_score or combined_score column;
absent columns are modelled by none (downstream code reads them with
row.get(col, 0)). -/
structure OutRow where
  id : String
  location : String
  experience : Int
  vec_score : Option ℚ
  sp_score : Option ℚ
  combined_score : Option ℚ
deriving DecidableEq

/-- A merged row in api.py: both scores, no combined-score column. -/
structure ApiRow where
  id : String
  location : String
  experience : Int
  vec_score : ℚ
  sp_score : ℚ
deriving DecidableEq

/-- A row of the candidate-attributes spreadsheet (only the columns used by
the properties below). -/
structure ExcelRow where
  employee_id : String
  name : String
deriving DecidableEq

/-- A single-job search request body for new_main.py (all required fields
present; requests failing field validation are answered 400 before the
pipeline runs and are outside the properties below). -/
structure JobRequest where
  id : String
  job_title : String
  rolelevel : String
  location : String
  role_summary : String
deriving DecidableEq

/-- Outcomes of the external collaborators for one search invocation:
the text-generation response and the two similarity-search backends, the
latter keyed by query text and metadata filter.  An error value models the
external call raising. -/
structure Backend where
  geminiResp : Except String String
  denseHits : String → SearchFilter → Except String (List Hit)
  sparseHits : String → SearchFilter → Except String (List Hit)

/-- A candidate entry of a JSON response (identity plus the enriched name;
the score fields of the response do not participate in any property below). -/
structure Candidate where
  candidate_id : String
  name : String
deriving DecidableEq

/-- Response of the single-job endpoint of new_main.py, reduced to the three
shapes it can produce after validation: the 200 no-matches body, the 200
matches body, and the 500 internal-error body. -/
inductive SearchResponse where
  | noMatches (request_id : String) (extracted_skills : String)
  | matches (request_id : String) (matches_found : Nat)
      (candidates : List Candidate) (extracted_skills : String)
  | serverError (msg : String)
deriving DecidableEq

/-- HTTP status code of a SearchResponse. -/
def SearchResponse.status : SearchResponse → Nat
  | .noMatches _ _ => 200
  | .matches _ _ _ _ => 200
  | .serverError _ => 500

/-- One entry of the bulk-endpoint result list in new_main.py.  A success
entry carries matches_found, top_candidates and extracted_skills and has
error = none; a failure entry carries only the request id, the job title and
error = some message (the remaining fields are none or empty, matching the
smaller failure dictionary built by the code). -/
structure BulkEntry where
  request_id : String
  job_title : String
  matches_found : Option Nat
  top_candidates : List Candidate
  extracted_skills : Option String
  error : Option String
deriving DecidableEq

/-- One MatchResponse entry of match_bulk in api.py: requirement id,
extracted skills, candidate rows.  The Pydantic model has no error field. -/
structure ApiEntry where
  requirementId : String
  extractedSkills : String
  candidates : List ApiRow
deriving DecidableEq

/-- One record passed to upsert_records: the record id and the indexed text
(the shared metadata dict does not participate in any property below). -/
structure UpsertRecord where
  rid : String
  text : String
deriving DecidableEq

namespace NewMain

/-- build_filter of new_main.py (lines 55-70): location is lower-cased into
an equality constraint; the stripped, lower-cased level label selects the
experience range, defaulting to no experience constraint. -/
def build_filter (location level : String) : SearchFilter :=
  let lvl := lowerStr (trimStr level)
  if lvl = "junior" ∨ lvl = "entry" then
    { location := lowerStr location, experience := some (ExpConstraint.lte 2) }
  else if lvl = "mid" ∨ lvl = "middle" ∨ lvl = "intermediate" then
    { location := lowerStr location, experience := some (ExpConstraint.gtLt 2 5) }
  else if lvl = "senior" ∨ lvl = "sr" then
    { location := lowerStr location, experience := some (ExpConstraint.gte 5) }
  else
    { location := lowerStr location, experience := none }

/-- extract_skills_with_gemini of new_main.py (lines 72-92): on success the
response text is stripped; on any failure of the external call the function
returns the empty string. -/
def extract_skills_with_gemini (resp : Except String String) : String :=
  match resp with
  | Except.ok t => trimStr t
  | Except.error _ => ""

/-- Join of one dense row with one sparse row sharing the merge keys,
including the combined-score column added right after the merge:
vec_score * 0.6 + sp_score * 0.4 (new_main.py lines 150-159). -/
def mergeRows (v s : Hit) : MergedRow :=
  { id := v.id, location := v.location, experience := v.experience,
    vec_score := v.score, sp_score := s.score,
    combined_score := v.score * (3 / 5) + s.score * (2 / 5) }

/-- Inner join of the two hit lists on the keys id, location and experience,
in the pandas inner-merge row order (left rows in order, each paired with its
matching right rows in order). -/
def innerMerge (hits_v hits_s : List Hit) : List MergedRow :=
  hits_v.flatMap (fun v =>
    hits_s.filterMap (fun s =>
      if v.id = s.id ∧ v.location = s.location ∧ v.experience = s.experience then
        some (mergeRows v s)
      else none))

/-- Descending-combined-score relation used by the final sort. -/
def combinedGe (a b : MergedRow) : Prop :=
  b.combined_score ≤ a.combined_score

instance : DecidableRel combinedGe := fun a b =>
  inferInstanceAs (Decidable (b.combined_score ≤ a.combined_score))

instance : IsTotal MergedRow combinedGe :=
  ⟨fun a b => le_total b.combined_score a.combined_score⟩

instance : IsTrans MergedRow combinedGe :=
  ⟨fun _ _ _ hab hbc => le_trans hbc hab⟩

/-- sort_values on the combined_score column, descending (new_main.py lines
161-164).  The code delegates to the pandas default sort, whose order on
ties is unspecified; the model fixes insertion sort, and no property below
depends on the tie order. -/
def sortDesc (l : List MergedRow) : List MergedRow :=
  List.insertionSort combinedGe l

/-- A sparse-only hit as returned unchanged by the df_v-empty fallback
branch: the vec_score and combined_score columns are absent. -/
def sparseOut (h : Hit) : OutRow :=
  { id := h.id, location := h.location, experience := h.experience,
    vec_score := none, sp_score := some h.score, combined_score := none }

/-- A dense-only hit as returned unchanged by the df_s-empty fallback
branch: the sp_score and combined_score columns are absent. -/
def denseOut (h : Hit) : OutRow :=
  { id := h.id, location := h.location, experience := h.experience,
    vec_score := some h.score, sp_score := none, combined_score := none }

/-- View of a fully merged row as an output row (all columns present). -/
def MergedRow.toOut (m : MergedRow) : OutRow :=
  { id := m.id, location := m.location, experience := m.experience,
    vec_score := some m.vec_score, sp_score := some m.sp_score,
    combined_score := some m.combined_score }

/-- Steps 4-5 of run_candidate_search (new_main.py lines 141-166): both
empty gives an empty result; exactly one empty returns the other DataFrame
unchanged; otherwise inner-join, score and sort. -/
def mergeStep (hits_v hits_s : List Hit) : List OutRow :=
  if hits_v = [] ∧ hits_s = [] then []
  else if hits_v = [] then hits_s.map sparseOut
  else if hits_s = [] then hits_v.map denseOut
  else (sortDesc (innerMerge hits_v hits_s)).map MergedRow.toOut

/-- run_candidate_search of new_main.py (lines 94-170): extract skills
(fail-soft), dense query on the job description, sparse query on the
extracted skills, then the merge step.  The surrounding try/except converts
any raising backend call into the empty-DataFrame, empty-skills pair. -/
def run_candidate_search (b : Backend) (job_description : String)
    (metadata_filter : SearchFilter) : List OutRow × String :=
  let skills_csv := extract_skills_with_gemini b.geminiResp
  match b.denseHits job_description metadata_filter with
  | Except.error _ => ([], "")
  | Except.ok hits_v =>
    match b.sparseHits skills_csv metadata_filter with
    | Except.error _ => ([], "")
    | Except.ok hits_s => (mergeStep hits_v hits_s, skills_csv)

/-- get_candidate_details_from_excel of new_main.py (lines 172-185): the
spreadsheet rows whose Employee ID is among the candidate ids. -/
def get_candidate_details_from_excel (candidate_ids : List String)
    (rows : List ExcelRow) : List ExcelRow :=
  rows.filter (fun c => candidate_ids.contains c.employee_id)

/-- The per-row candidate dictionaries of the response body (new_main.py
lines 247-265), one per merged result row, enriching each row with the name
from the spreadsheet details (defaulting to N/A). -/
def buildCandidates (details : List ExcelRow) (df : List OutRow) : List Candidate :=
  df.map (fun r =>
    { candidate_id := r.id,
      name := match details.find? (fun c => c.employee_id = r.id) with
              | some c => c.name
              | none => "N/A" })

/-- The search_candidates endpoint of new_main.py (lines 192-293) after
field validation: run the search; an empty result DataFrame yields the 200
no-matches body; otherwise the spreadsheet is downloaded (a raising download
propagates to the outer handler and yields the 500 body) and the 200 matches
body reports matches_found over the full candidate list while returning only
the first 20 candidates. -/
def search_candidates (b : Backend) (excel : Except String (List ExcelRow))
    (req : JobRequest) : SearchResponse :=
  let search_filter := build_filter req.location req.rolelevel
  let res := run_candidate_search b req.role_summary search_filter
  if res.1 = [] then
    SearchResponse.noMatches req.id res.2
  else
    match excel with
    | Except.error e => SearchResponse.serverError e
    | Except.ok rows =>
      let details := get_candidate_details_from_excel (res.1.map OutRow.id) rows
      let candidates := buildCandidates details res.1
      SearchResponse.matches req.id candidates.length (candidates.take 20) res.2

/-- Processing of one completed bulk future (new_main.py lines 331-369): a
successful search yields the full success entry (top 10 candidates, full
matches_found); a raised exception yields the small failure dictionary
carrying the request id, the job title and the error message. -/
def processJob (excelRows : List ExcelRow) (job : JobRequest)
    (outcome : Except String (List OutRow × String)) : BulkEntry :=
  match outcome with
  | Except.error e =>
    { request_id := job.id, job_title := job.job_title,
      matches_found := none, top_candidates := [],
      extracted_skills := none, error := some e }
  | Except.ok (df, skills) =>
    let details := get_candidate_details_from_excel (df.map OutRow.id) excelRows
    let cands := buildCandidates details df
    { request_id := job.id, job_title := job.job_title,
      matches_found := some cands.length, top_candidates := cands.take 10,
      extracted_skills := some skills, error := none }

/-- Result collection of bulk_search_candidates (new_main.py lines 295-380)
over the submitted jobs paired with their per-job outcomes, in completion
order: the list argument may be any completion order of the futures. -/
def bulk_search_candidates (excelRows : List ExcelRow)
    (jobs : List (JobRequest × Except String (List OutRow × String))) :
    List BulkEntry :=
  jobs.map (fun p => processJob excelRows p.1 p.2)

end NewMain

namespace Api

/-- build_filter of api.py (lines 41-50): location kept as is; junior gives
lte 1, mid gives gt 1 lt 3, and every other label, senior included, gives
gt 3.  pages/Search_candidates.py duplicates this definition. -/
def build_filter (location level : String) : SearchFilter :=
  let lvl := lowerStr (trimStr level)
  if lvl = "junior" then
    { location := location, experience := some (ExpConstraint.lte 1) }
  else if lvl = "mid" then
    { location := location, experience := some (ExpConstraint.gtLt 1 3) }
  else
    { location := location, experience := some (ExpConstraint.gt 3) }

/-- Join of one dense row with one sparse row in api.py: no combined-score
column is computed. -/
def joinRows (v s : Hit) : ApiRow :=
  { id := v.id, location := v.location, experience := v.experience,
    vec_score := v.score, sp_score := s.score }

/-- Inner join of the two hit lists on id, location and experience
(api.py line 86). -/
def innerJoin (hits_v hits_s : List Hit) : List ApiRow :=
  hits_v.flatMap (fun v =>
    hits_s.filterMap (fun s =>
      if v.id = s.id ∧ v.location = s.location ∧ v.experience = s.experience then
        some (joinRows v s)
      else none))

/-- Descending lexicographic relation on (vec_score, sp_score) used by
sort_values([vec_score, sp_score], ascending=False) in api.py line 87. -/
def vecSpGe (a b : ApiRow) : Prop :=
  b.vec_score < a.vec_score ∨ (b.vec_score = a.vec_score ∧ b.sp_score ≤ a.sp_score)

instance : DecidableRel vecSpGe := fun a b =>
  inferInstanceAs (Decidable (b.vec_score < a.vec_score ∨
    (b.vec_score = a.vec_score ∧ b.sp_score ≤ a.sp_score)))

/-- The sort of api.py: descending by vec_score, then by sp_score. -/
def sortVecSp (l : List ApiRow) : List ApiRow :=
  List.insertionSort vecSpGe l

/-- Steps 4-5 of run_search (api.py lines 82-90): if either DataFrame is
empty the result is empty; otherwise inner-join and sort by vec_score then
sp_score descending. -/
def intersectAndSort (hits_v hits_s : List Hit) : List ApiRow :=
  if hits_v = [] ∨ hits_s = [] then []
  else sortVecSp (innerJoin hits_v hits_s)

/-- run_search of api.py (lines 53-90): no try/except anywhere, so a failure
of the text-generation call or of either similarity query propagates to the
caller. -/
def run_search (b : Backend) (jd_text : String) (md_filter : SearchFilter) :
    Except String (List ApiRow × String) :=
  match b.geminiResp with
  | Except.error e => Except.error e
  | Except.ok t =>
    let skills_csv := trimStr t
    match b.denseHits jd_text md_filter with
    | Except.error e => Except.error e
    | Except.ok hits_v =>
      match b.sparseHits skills_csv md_filter with
      | Except.error e => Except.error e
      | Except.ok hits_s => Except.ok (intersectAndSort hits_v hits_s, skills_csv)

/-- Processing of one completed future in match_bulk (api.py lines 179-190):
a success appends the MatchResponse; a raised exception appends a
MatchResponse with the requirement id, empty skills and an empty candidate
list - the model has no error field. -/
def processResult (req_id : String)
    (outcome : Except String (List ApiRow × String)) : ApiEntry :=
  match outcome with
  | Except.ok (hits, skills) =>
    { requirementId := req_id, extractedSkills := skills, candidates := hits }
  | Except.error _ =>
    { requirementId := req_id, extractedSkills := "", candidates := [] }

/-- Result collection of match_bulk (api.py lines 150-192) over the
requirement ids paired with their per-job outcomes, in completion order. -/
def match_bulk (jobs : List (String × Except String (List ApiRow × String))) :
    List ApiEntry :=
  jobs.map (fun p => processResult p.1 p.2)

end Api

namespace UploadBatch

/-- Whether the first list is a prefix of the second, by plain character
comparison. -/
def isPrefixChars : List Char → List Char → Bool
  | [], _ => true
  | _ :: _, [] => false
  | p :: ps, c :: cs => p = c && isPrefixChars ps cs

/-- Index of the first occurrence of the pattern in the text, if any. -/
def findSub (pat : List Char) : List Char → Option Nat
  | [] => if isPrefixChars pat [] then some 0 else none
  | c :: cs =>
    if isPrefixChars pat (c :: cs) then some 0
    else (findSub pat cs).map (· + 1)

/-- extract_project_experience of pages/upload_batch.py (lines 32-36):
the first case-insensitive match of the label Project Experience followed by
a colon, capturing everything to the end of the document (DOTALL, greedy)
and stripping surrounding whitespace; the empty string if there is no
match.  Case-insensitivity is modelled by searching the lower-cased text
while capturing from the original text (the lower-casing preserves length,
so the indices align). -/
def extract_project_experience (text : String) : String :=
  let pat := "project experience:".toList
  match findSub pat (text.toList.map Char.toLower) with
  | none => ""
  | some i => trimStr (String.mk (text.toList.drop (i + pat.length)))

/-- upsert_candidate of pages/upload_batch.py (lines 38-65) for one
spreadsheet row, returning the records upserted into the dense namespace
and into the sparse namespace.  The resume lookup outcome is ok text when
the PDF was found (with the extracted document text) and error when the
file was missing (FileNotFoundError, caught: only a UI error message).  The
dense upsert happens only when the extracted section is non-empty; the
sparse upsert of the skills text is unconditional. -/
def upsert_candidate (emp_id skills : String) (pdf : Except Unit String) :
    List UpsertRecord × List UpsertRecord :=
  let dense :=
    match pdf with
    | Except.error _ => []
    | Except.ok text =>
      let proj_text := extract_project_experience text
      if proj_text = "" then [] else [{ rid := emp_id, text := proj_text }]
  (dense, [{ rid := emp_id, text := skills }])

end UploadBatch

/-! Concrete collaborator outcomes and requests used to instantiate the
theorems below at specific inputs. -/

/-- A backend whose text-generation call fails while both similarity
queries succeed; the sparse index only accepts the empty query. -/
def geminiDownBackend : Backend :=
  { geminiResp := Except.error "quota exceeded",
    denseHits := fun _ _ => Except.ok [⟨"E1", 1, "pune", 3⟩],
    sparseHits := fun q _ =>
      if q = "" then Except.ok [⟨"E1", 1, "pune", 3⟩]
      else Except.error "nonempty sparse query" }

/-- A single-job request for a senior role in bangalore. -/
def reqSenior : JobRequest :=
  { id := "R1", job_title := "Senior Dev", rolelevel := "senior",
    location := "bangalore", role_summary := "jd text" }

/-- A backend whose dense similarity query raises. -/
def pineconeDownBackend : Backend :=
  { geminiResp := Except.ok "python, sql",
    denseHits := fun _ _ => Except.error "pinecone down",
    sparseHits := fun _ _ => Except.ok [] }

/-- A healthy backend that genuinely returns zero hits on both sides (the
text-generation call yields only whitespace, so the extracted skills are
empty). -/
def emptyHitsBackend : Backend :=
  { geminiResp := Except.ok "",
    denseHits := fun _ _ => Except.ok [],
    sparseHits := fun _ _ => Except.ok [] }

/-- A healthy backend returning one dense and one sparse hit for the same
candidate. -/
def healthyBackend : Backend :=
  { geminiResp := Except.ok "python, sql",
    denseHits := fun _ _ => Except.ok [⟨"E1", 9 / 10, "bangalore", 6⟩],
    sparseHits := fun _ _ => Except.ok [⟨"E1", 7 / 10, "bangalore", 6⟩] }

/-- The i-th of a family of distinct candidate hits. -/
def hitI (i : Nat) : Hit :=
  { id := "E" ++ toString i, score := 1, location := "bangalore", experience := 6 }

/-- Twenty-one distinct candidate hits. -/
def manyHits : List Hit :=
  (List.range 21).map hitI

/-- A request for the truncation scenario. -/
def reqTrunc : JobRequest :=
  { id := "R2", job_title := "Dev", rolelevel := "senior",
    location := "bangalore", role_summary := "jd text" }

/-- A backend returning the same twenty-one hits on both sides, so the
merge produces twenty-one rows. -/
def truncBackend : Backend :=
  { geminiResp := Except.ok "python",
    denseHits := fun _ _ => Except.ok manyHits,
    sparseHits := fun _ _ => Except.ok manyHits }

/-! Helper lemmas about the merge pipeline. -/

/-- Membership is preserved by the final sort. -/
theorem mem_sortDesc {x : MergedRow} {l : List MergedRow} :
    x ∈ NewMain.sortDesc l ↔ x ∈ l :=
  (List.perm_insertionSort _ _).mem_iff

/-- Characterisation of the rows produced by the inner join. -/
theorem mem_innerMerge {m : MergedRow} {dv ds : List Hit} :
    m ∈ NewMain.innerMerge dv ds ↔
      ∃ v ∈ dv, ∃ s ∈ ds,
        (v.id = s.id ∧ v.location = s.location ∧ v.experience = s.experience) ∧
        m = NewMain.mergeRows v s := by
  simp only [NewMain.innerMerge, List.mem_flatMap, List.mem_filterMap,
    Option.ite_none_right_eq_some, Option.some.injEq]
  constructor
  · rintro ⟨v, hv, s, hs, hkeys, heq⟩
    exact ⟨v, hv, s, hs, hkeys, heq.symm⟩
  · rintro ⟨v, hv, s, hs, hkeys, heq⟩
    exact ⟨v, hv, s, hs, hkeys, heq.symm⟩

/-- With two non-empty hit lists the merge step takes the inner-join,
score-and-sort branch. -/
theorem mergeStep_of_ne {dv ds : List Hit} (hv : dv ≠ []) (hs : ds ≠ []) :
    NewMain.mergeStep dv ds =
      (NewMain.sortDesc (NewMain.innerMerge dv ds)).map NewMain.MergedRow.toOut := by
  simp [NewMain.mergeStep, hv, hs]

/-- With two non-empty hit lists the merge step has exactly one output row
per inner-join row. -/
theorem mergeStep_length {dv ds : List Hit} (hv : dv ≠ []) (hs : ds ≠ []) :
    (NewMain.mergeStep dv ds).length = (NewMain.innerMerge dv ds).length := by
  rw [mergeStep_of_ne hv hs, List.length_map, NewMain.sortDesc,
    (List.perm_insertionSort NewMain.combinedGe _).length_eq]

/-- A row in the inner join makes the merged output non-empty. -/
theorem mergeStep_ne_nil_of_mem {dv ds : List Hit} {m : MergedRow}
    (hv : dv ≠ []) (hs : ds ≠ []) (hm : m ∈ NewMain.innerMerge dv ds) :
    NewMain.mergeStep dv ds ≠ [] := by
  rw [mergeStep_of_ne hv hs]
  intro hnil
  rw [List.map_eq_nil_iff] at hnil
  exact absurd (mem_sortDesc.2 hm) (by rw [hnil]; exact List.not_mem_nil m)

/-! Claim theorems. -/

/-- C1 counterexample: in new_main.py, when the dense hit list is empty and
the sparse hit list is not, the merge output is the sparse list unchanged
rather than empty, and its entry carries an identity that appears in no
dense hit; this refutes the claimed inner-join invariant and the claimed
empty-input-empty-output behaviour. -/
theorem merge_fallback_breaks_inner_join :
    NewMain.mergeStep [] [⟨"E1", 7 / 10, "pune", 3⟩] ≠ [] ∧
    (NewMain.mergeStep [] [⟨"E1", 7 / 10, "pune", 3⟩]).map OutRow.id = ["E1"] := by
  constructor <;> norm_num [NewMain.mergeStep, NewMain.sparseOut]

/-- C1 (amended): when both input hit lists are non-empty, every entry of
the new_main.py merge output has a candidate identity appearing in both the
dense and the sparse hit lists; when the dense list is empty, new_main.py
instead returns the sparse hits unchanged, while api.py returns the empty
list. -/
theorem merge_inner_join_when_both_nonempty (dv ds : List Hit)
    (hv : dv ≠ []) (hs : ds ≠ []) :
    (∀ r ∈ NewMain.mergeStep dv ds,
        (∃ v ∈ dv, v.id = r.id) ∧ (∃ s ∈ ds, s.id = r.id)) ∧
    NewMain.mergeStep [] ds = List.map NewMain.sparseOut ds ∧
    Api.intersectAndSort [] ds = [] := by
  refine ⟨?_, ?_, ?_⟩
  · intro r hr
    rw [mergeStep_of_ne hv hs] at hr
    obtain ⟨m, hm, rfl⟩ := List.mem_map.1 hr
    obtain ⟨v, hvm, s, hsm, ⟨hid, _, _⟩, rfl⟩ := mem_innerMerge.1 (mem_sortDesc.1 hm)
    exact ⟨⟨v, hvm, rfl⟩, ⟨s, hsm, hid.symm⟩⟩
  · simp [NewMain.mergeStep, hs]
  · simp [Api.intersectAndSort]

/-- Witness for C1 at the one-hit scenario of the specification. -/
theorem merge_inner_join_when_both_nonempty_witness :
    (∀ r ∈ NewMain.mergeStep [⟨"E1", 9 / 10, "pune", 3⟩] [⟨"E1", 7 / 10, "pune", 3⟩],
        (∃ v ∈ [(⟨"E1", 9 / 10, "pune", 3⟩ : Hit)], v.id = r.id) ∧
        (∃ s ∈ [(⟨"E1", 7 / 10, "pune", 3⟩ : Hit)], s.id = r.id)) ∧
    NewMain.mergeStep [] [⟨"E1", 7 / 10, "pune", 3⟩] =
      List.map NewMain.sparseOut [⟨"E1", 7 / 10, "pune", 3⟩] ∧
    Api.intersectAndSort [] [⟨"E1", 7 / 10, "pune", 3⟩] = [] :=
  merge_inner_join_when_both_nonempty _ _ (by simp) (by simp)

/-- C2: with both hit lists non-empty, every entry of the new_main.py merge
output carries both component scores and a combined score equal to
0.6 times the dense score plus 0.4 times the sparse score. -/
theorem merged_combined_score_formula (dv ds : List Hit)
    (hv : dv ≠ []) (hs : ds ≠ []) :
    ∀ r ∈ NewMain.mergeStep dv ds, ∃ v s : ℚ,
      r.vec_score = some v ∧ r.sp_score = some s ∧
      r.combined_score = some (v * (3 / 5) + s * (2 / 5)) := by
  intro r hr
  rw [mergeStep_of_ne hv hs] at hr
  obtain ⟨m, hm, rfl⟩ := List.mem_map.1 hr
  obtain ⟨v, _, s, _, _, rfl⟩ := mem_innerMerge.1 (mem_sortDesc.1 hm)
  exact ⟨v.score, s.score, rfl, rfl, rfl⟩

/-- Witness for C2 at the scenario of the specification: dense score 0.9 and
sparse score 0.7 give combined score 0.82. -/
theorem merged_combined_score_formula_witness :
    (∀ r ∈ NewMain.mergeStep [⟨"E1", 9 / 10, "pune", 3⟩] [⟨"E1", 7 / 10, "pune", 3⟩],
        ∃ v s : ℚ, r.vec_score = some v ∧ r.sp_score = some s ∧
          r.combined_score = some (v * (3 / 5) + s * (2 / 5))) ∧
    (NewMain.mergeStep [⟨"E1", 9 / 10, "pune", 3⟩] [⟨"E1", 7 / 10, "pune", 3⟩]).map
        (fun r => r.combined_score) = [some (41 / 50)] :=
  ⟨merged_combined_score_formula _ _ (by simp) (by simp), by
    norm_num [NewMain.mergeStep, NewMain.innerMerge, NewMain.sortDesc,
      List.insertionSort, List.orderedInsert, NewMain.mergeRows,
      NewMain.MergedRow.toOut]⟩

/-- C3 counterexample: api.py sorts the merged rows by dense score and then
sparse score, not by combined score, so an earlier entry can have a strictly
smaller combined score than a later one: with the rows below the output
order has combined scores 0.54 and then 0.84. -/
theorem api_sort_breaks_combined_order :
    (Api.intersectAndSort
        [⟨"A", 9 / 10, "x", 1⟩, ⟨"B", 4 / 5, "x", 1⟩]
        [⟨"A", 0, "x", 1⟩, ⟨"B", 9 / 10, "x", 1⟩]).map
      (fun r => r.vec_score * (3 / 5) + r.sp_score * (2 / 5)) = [27 / 50, 21 / 25] ∧
    (27 / 50 : ℚ) < 21 / 25 := by
  constructor
  · rw [Api.intersectAndSort, if_neg (by simp)]
    norm_num [Api.innerJoin, Api.sortVecSp, List.insertionSort,
      List.orderedInsert, Api.joinRows, Api.vecSpGe]
  · norm_num

/-- C3 (amended): with both hit lists non-empty, the new_main.py merge
output is ordered descending by combined score (the code sorts on that
single key; no dense-then-sparse tie-break is implemented and the tie order
is unspecified); the api.py variant orders by dense then sparse score,
which does not guarantee descending combined scores. -/
theorem merged_sorted_desc_by_combined (dv ds : List Hit)
    (hv : dv ≠ []) (hs : ds ≠ []) :
    List.Sorted (fun a b : OutRow => b.combined_score.getD 0 ≤ a.combined_score.getD 0)
      (NewMain.mergeStep dv ds) := by
  rw [mergeStep_of_ne hv hs]
  refine List.Pairwise.map _ ?_ (List.sorted_insertionSort NewMain.combinedGe _)
  intro a b hab
  simpa [NewMain.MergedRow.toOut] using hab

/-- Witness for C3 at a two-candidate merge. -/
theorem merged_sorted_desc_by_combined_witness :
    List.Sorted (fun a b : OutRow => b.combined_score.getD 0 ≤ a.combined_score.getD 0)
      (NewMain.mergeStep
        [⟨"E1", 9 / 10, "pune", 3⟩, ⟨"E2", 1 / 10, "pune", 3⟩]
        [⟨"E1", 7 / 10, "pune", 3⟩, ⟨"E2", 4 / 5, "pune", 3⟩]) :=
  merged_sorted_desc_by_combined _ _ (by simp) (by simp)

/-- C4 counterexample: api.py has a second build_filter whose senior branch
(and default branch) produces the constraint gt 3 rather than gte 5, so the
claimed output for ("bangalore", "senior") does not hold there. -/
theorem api_build_filter_senior_cex :
    Api.build_filter "bangalore" "senior" =
      { location := "bangalore", experience := some (ExpConstraint.gt 3) } ∧
    Api.build_filter "bangalore" "senior" ≠
      { location := "bangalore", experience := some (ExpConstraint.gte 5) } := by
  constructor <;> decide

/-- C4 (amended): the build_filter of new_main.py satisfies the claimed
policy - junior synonyms give lte 2, mid synonyms give gt 2 and lt 5,
senior synonyms give gte 5, the location is lower-cased into an equality
constraint, and ("bangalore", "senior") yields the claimed filter; the
api.py variant instead uses the thresholds lte 1, gt 1 lt 3 and gt 3. -/
theorem newmain_build_filter_levels (location level : String) :
    ((lowerStr (trimStr level) = "junior" ∨ lowerStr (trimStr level) = "entry") →
        NewMain.build_filter location level =
          { location := lowerStr location, experience := some (ExpConstraint.lte 2) }) ∧
    ((lowerStr (trimStr level) = "mid" ∨ lowerStr (trimStr level) = "middle" ∨
        lowerStr (trimStr level) = "intermediate") →
        NewMain.build_filter location level =
          { location := lowerStr location, experience := some (ExpConstraint.gtLt 2 5) }) ∧
    ((lowerStr (trimStr level) = "senior" ∨ lowerStr (trimStr level) = "sr") →
        NewMain.build_filter location level =
          { location := lowerStr location, experience := some (ExpConstraint.gte 5) }) ∧
    NewMain.build_filter "bangalore" "senior" =
      { location := "bangalore", experience := some (ExpConstraint.gte 5) } := by
  refine ⟨?_, ?_, ?_, by decide⟩
  · rintro (h | h) <;> simp [NewMain.build_filter, h]
  · rintro (h | h | h) <;> simp [NewMain.build_filter, h]
  · rintro (h | h) <;> simp [NewMain.build_filter, h]

/-- Witness for C4: the senior branch applied to a label with surrounding
whitespace and mixed case, plus the scenario of the specification. -/
theorem newmain_build_filter_levels_witness :
    NewMain.build_filter "pune" " Senior " =
      { location := "pune", experience := some (ExpConstraint.gte 5) } ∧
    NewMain.build_filter "bangalore" "senior" =
      { location := "bangalore", experience := some (ExpConstraint.gte 5) } :=
  ⟨(newmain_build_filter_levels "pune" " Senior ").2.2.1 (Or.inl (by decide)),
   (newmain_build_filter_levels "bangalore" "senior").2.2.2⟩

/-- C5 counterexample: for an unrecognized level label api.py falls into its
default branch and still emits an experience constraint (gt 3), so the
claimed filter for ("delhi", "unknownlabel") does not hold there. -/
theorem api_build_filter_unknown_has_experience :
    (Api.build_filter "delhi" "unknownlabel").experience = some (ExpConstraint.gt 3) ∧
    (Api.build_filter "delhi" "unknownlabel").experience ≠ none := by
  constructor <;> decide

/-- C5 (amended): in new_main.py an unrecognized level label yields a filter
with only the location constraint and no experience key, and
("delhi", "unknownlabel") yields the claimed filter; the api.py variant
instead applies gt 3 to every unrecognized label. -/
theorem newmain_build_filter_unrecognized (location level : String)
    (h : lowerStr (trimStr level) ∉
        (["junior", "entry", "mid", "middle", "intermediate", "senior", "sr"] : List String)) :
    NewMain.build_filter location level =
      { location := lowerStr location, experience := none } ∧
    NewMain.build_filter "delhi" "unknownlabel" =
      { location := "delhi", experience := none } := by
  refine ⟨?_, by decide⟩
  simp only [List.mem_cons, List.not_mem_nil, or_false, not_or] at h
  obtain ⟨h1, h2, h3, h4, h5, h6, h7⟩ := h
  simp [NewMain.build_filter, h1, h2, h3, h4, h5, h6, h7]

/-- Witness for C5 at the scenario of the specification. -/
theorem newmain_build_filter_unrecognized_witness :
    NewMain.build_filter "delhi" "unknownlabel" =
      { location := "delhi", experience := none } :=
  (newmain_build_filter_unrecognized "delhi" "unknownlabel" (by decide)).1

/-- C6 counterexample: in api.py the skill extraction is inlined in
run_search with no exception handling, so a failing text-generation call
propagates and fails the whole search instead of degrading to an empty
skill string. -/
theorem api_gemini_failure_propagates :
    Api.run_search geminiDownBackend "jd text" (Api.build_filter "pune" "senior") =
      Except.error "quota exceeded" := rfl

/-- C6 (amended): in new_main.py a failing text-generation call makes
extract_skills_with_gemini return the empty string instead of propagating,
and run_candidate_search then proceeds, issuing the sparse query with the
empty string as query text; in api.py the failure propagates and fails the
search. -/
theorem gemini_failure_degrades_to_empty (b : Backend) (jd e : String)
    (f : SearchFilter) (hg : b.geminiResp = Except.error e) (hv hs : List Hit)
    (hd : b.denseHits jd f = Except.ok hv) (hsp : b.sparseHits "" f = Except.ok hs) :
    NewMain.extract_skills_with_gemini b.geminiResp = "" ∧
    NewMain.run_candidate_search b jd f = (NewMain.mergeStep hv hs, "") := by
  have hx : NewMain.extract_skills_with_gemini b.geminiResp = "" := by
    rw [hg]; rfl
  refine ⟨hx, ?_⟩
  simp [NewMain.run_candidate_search, hx, hd, hsp]

/-- Witness for C6: a backend whose sparse index only answers the empty
query, showing the search proceeds with the empty sparse query text. -/
theorem gemini_failure_degrades_to_empty_witness :
    NewMain.extract_skills_with_gemini geminiDownBackend.geminiResp = "" ∧
    NewMain.run_candidate_search geminiDownBackend "jd text"
        (NewMain.build_filter "pune" "senior") =
      (NewMain.mergeStep [⟨"E1", 1, "pune", 3⟩] [⟨"E1", 1, "pune", 3⟩], "") :=
  gemini_failure_degrades_to_empty geminiDownBackend "jd text" "quota exceeded"
    (NewMain.build_filter "pune" "senior") rfl
    [⟨"E1", 1, "pune", 3⟩] [⟨"E1", 1, "pune", 3⟩] rfl rfl

/-- C7 counterexample: in new_main.py a raising similarity backend is caught
inside run_candidate_search, so the single-job endpoint answers 200 with the
no-matches body, not a 5xx, and the response is identical to the one
produced by a healthy backend that genuinely returns zero hits - the two
outcomes are not distinguishable. -/
theorem backend_failure_returns_200 :
    NewMain.search_candidates pineconeDownBackend (Except.ok []) reqSenior =
      SearchResponse.noMatches "R1" "" ∧
    (NewMain.search_candidates pineconeDownBackend (Except.ok []) reqSenior).status = 200 ∧
    NewMain.search_candidates pineconeDownBackend (Except.ok []) reqSenior =
      NewMain.search_candidates emptyHitsBackend (Except.ok []) reqSenior := by
  refine ⟨rfl, rfl, rfl⟩

/-- C7 (amended): in new_main.py a similarity-backend failure inside
run_candidate_search is converted into the empty result, so the single-job
endpoint returns the 200 no-matches response; only failures outside
run_candidate_search, such as the enrichment-spreadsheet download raising
once the merge is non-empty, produce the 500 error response. -/
theorem newmain_failure_modes (b : Backend) (excel : Except String (List ExcelRow))
    (req : JobRequest) :
    (∀ e, b.denseHits req.role_summary (NewMain.build_filter req.location req.rolelevel) =
        Except.error e →
        NewMain.search_candidates b excel req = SearchResponse.noMatches req.id "" ∧
        (NewMain.search_candidates b excel req).status = 200) ∧
    (∀ e, excel = Except.error e →
        (NewMain.run_candidate_search b req.role_summary
            (NewMain.build_filter req.location req.rolelevel)).1 ≠ [] →
        NewMain.search_candidates b excel req = SearchResponse.serverError e ∧
        (NewMain.search_candidates b excel req).status = 500) := by
  constructor
  · intro e he
    have hrun : NewMain.run_candidate_search b req.role_summary
        (NewMain.build_filter req.location req.rolelevel) = ([], "") := by
      simp [NewMain.run_candidate_search, he]
    have hresp : NewMain.search_candidates b excel req =
        SearchResponse.noMatches req.id "" := by
      simp [NewMain.search_candidates, hrun]
    exact ⟨hresp, by rw [hresp]; rfl⟩
  · intro e he hne
    have hresp : NewMain.search_candidates b excel req =
        SearchResponse.serverError e := by
      simp [NewMain.search_candidates, hne, he]
    exact ⟨hresp, by rw [hresp]; rfl⟩

/-- Witness for C7: the 200 branch at a failing dense backend and the 500
branch at a failing spreadsheet download with a non-empty merge. -/
theorem newmain_failure_modes_witness :
    (NewMain.search_candidates pineconeDownBackend (Except.ok []) reqSenior =
        SearchResponse.noMatches "R1" "" ∧
      (NewMain.search_candidates pineconeDownBackend (Except.ok []) reqSenior).status = 200) ∧
    (NewMain.search_candidates healthyBackend (Except.error "gcs down") reqSenior =
        SearchResponse.serverError "gcs down" ∧
      (NewMain.search_candidates healthyBackend (Except.error "gcs down") reqSenior).status = 500) := by
  constructor
  · exact (newmain_failure_modes pineconeDownBackend (Except.ok []) reqSenior).1
      "pinecone down" rfl
  · refine (newmain_failure_modes healthyBackend (Except.error "gcs down") reqSenior).2
      "gcs down" rfl ?_
    have h1 : (NewMain.run_candidate_search healthyBackend "jd text"
        (NewMain.build_filter "bangalore" "senior")).1 =
        NewMain.mergeStep [⟨"E1", 9 / 10, "bangalore", 6⟩] [⟨"E1", 7 / 10, "bangalore", 6⟩] := rfl
    rw [show NewMain.build_filter reqSenior.location reqSenior.rolelevel =
        NewMain.build_filter "bangalore" "senior" from rfl]
    rw [show reqSenior.role_summary = "jd text" from rfl, h1]
    exact mergeStep_ne_nil_of_mem (by simp) (by simp)
      (mem_innerMerge.2 ⟨_, List.mem_singleton.2 rfl, _, List.mem_singleton.2 rfl,
        ⟨rfl, rfl, rfl⟩, rfl⟩)

/-- C8 counterexample: in api.py a failing bulk job is recorded as a
MatchResponse with the requirement id, empty skills and an empty candidate
list; the model has no error field, so the entry is literally identical to
the entry of a job that succeeded with zero results - there is no error
indicator. -/
theorem api_bulk_error_indistinguishable :
    Api.match_bulk [("R1", Except.error "backend down")] =
      Api.match_bulk [("R1", Except.ok ([], ""))] ∧
    Api.match_bulk [("R1", Except.error "backend down")] =
      [{ requirementId := "R1", extractedSkills := "", candidates := [] }] := by
  exact ⟨rfl, rfl⟩

/-- C8 (amended): in the bulk endpoint of new_main.py, a job whose
processing raises yields exactly one entry tagged with that job's own
request id and an error message, and the entries of all other jobs are
exactly what they would be without the failure, in every completion order;
in api.py the failing job also keeps its own requirement id but its entry
carries no error indicator. -/
theorem bulk_isolated_error_tagging (excelRows : List ExcelRow)
    (l1 l2 : List (JobRequest × Except String (List OutRow × String)))
    (j : JobRequest) (e : String) :
    NewMain.bulk_search_candidates excelRows (l1 ++ (j, Except.error e) :: l2) =
      NewMain.bulk_search_candidates excelRows l1 ++
        { request_id := j.id, job_title := j.job_title, matches_found := none,
          top_candidates := [], extracted_skills := none, error := some e } ::
        NewMain.bulk_search_candidates excelRows l2 := by
  simp [NewMain.bulk_search_candidates, NewMain.processJob]

/-- C9: for every processed upload row, the skills text is upserted into the
sparse namespace unconditionally, while the dense upsert of the extracted
project-experience section happens exactly when the resume document was
found and the extracted section is non-empty. -/
theorem upsert_sparse_unconditional_dense_conditional (emp_id skills : String)
    (pdf : Except Unit String) :
    (UploadBatch.upsert_candidate emp_id skills pdf).2 = [{ rid := emp_id, text := skills }] ∧
    (∀ t, pdf = Except.ok t →
        (UploadBatch.upsert_candidate emp_id skills pdf).1 =
          (if UploadBatch.extract_project_experience t = "" then []
           else [{ rid := emp_id, text := UploadBatch.extract_project_experience t }])) ∧
    (∀ u, pdf = Except.error u →
        (UploadBatch.upsert_candidate emp_id skills pdf).1 = []) := by
  refine ⟨rfl, ?_, ?_⟩
  · rintro t rfl
    rfl
  · rintro u rfl
    rfl

/-- Witness for C9: a resume whose project-experience section is found
case-insensitively and upserted, and a missing resume for which only the
sparse upsert happens. -/
theorem upsert_candidate_witness :
    (UploadBatch.upsert_candidate "EMP-0001" "python, sql"
        (Except.ok "Intro\nPROJECT EXPERIENCE: built X")).2 =
      [{ rid := "EMP-0001", text := "python, sql" }] ∧
    (UploadBatch.upsert_candidate "EMP-0001" "python, sql"
        (Except.ok "Intro\nPROJECT EXPERIENCE: built X")).1 =
      [{ rid := "EMP-0001", text := "built X" }] ∧
    (UploadBatch.upsert_candidate "EMP-0002" "java" (Except.error ())).1 = [] ∧
    (UploadBatch.upsert_candidate "EMP-0002" "java" (Except.error ())).2 =
      [{ rid := "EMP-0002", text := "java" }] := by
  refine ⟨(upsert_sparse_unconditional_dense_conditional "EMP-0001" "python, sql" _).1,
    ?_, (upsert_sparse_unconditional_dense_conditional "EMP-0002" "java" _).2.2 () rfl,
    (upsert_sparse_unconditional_dense_conditional "EMP-0002" "java" _).1⟩
  rw [(upsert_sparse_unconditional_dense_conditional "EMP-0001" "python, sql" _).2.1
    "Intro\nPROJECT EXPERIENCE: built X" rfl]
  decide

/-- C10: when the merge is non-empty and the spreadsheet download succeeds,
the single-job response of new_main.py returns at most 20 candidates while
matches_found reports the full merged count, so matches_found exceeds the
number of returned candidates whenever the merge produced more than 20. -/
theorem search_response_truncation (b : Backend) (rows : List ExcelRow)
    (req : JobRequest)
    (h : (NewMain.run_candidate_search b req.role_summary
        (NewMain.build_filter req.location req.rolelevel)).1 ≠ []) :
    ∃ n cands skills,
      NewMain.search_candidates b (Except.ok rows) req =
        SearchResponse.matches req.id n cands skills ∧
      cands.length ≤ 20 ∧
      n = (NewMain.run_candidate_search b req.role_summary
        (NewMain.build_filter req.location req.rolelevel)).1.length ∧
      (20 < n → cands.length = 20) := by
  have hstep : NewMain.search_candidates b (Except.ok rows) req =
      SearchResponse.matches req.id
        (NewMain.buildCandidates
          (NewMain.get_candidate_details_from_excel
            ((NewMain.run_candidate_search b req.role_summary
              (NewMain.build_filter req.location req.rolelevel)).1.map OutRow.id) rows)
          (NewMain.run_candidate_search b req.role_summary
            (NewMain.build_filter req.location req.rolelevel)).1).length
        ((NewMain.buildCandidates
          (NewMain.get_candidate_details_from_excel
            ((NewMain.run_candidate_search b req.role_summary
              (NewMain.build_filter req.location req.rolelevel)).1.map OutRow.id) rows)
          (NewMain.run_candidate_search b req.role_summary
            (NewMain.build_filter req.location req.rolelevel)).1).take 20)
        (NewMain.run_candidate_search b req.role_summary
          (NewMain.build_filter req.location req.rolelevel)).2 := by
    simp [NewMain.search_candidates, h]
  refine ⟨_, _, _, hstep, ?_, ?_, ?_⟩
  · rw [List.length_take]
    exact min_le_left _ _
  · simp [NewMain.buildCandidates]
  · intro h20
    rw [List.length_take]
    have hlen : (NewMain.buildCandidates
        (NewMain.get_candidate_details_from_excel
          ((NewMain.run_candidate_search b req.role_summary
            (NewMain.build_filter req.location req.rolelevel)).1.map OutRow.id) rows)
        (NewMain.run_candidate_search b req.role_summary
          (NewMain.build_filter req.location req.rolelevel)).1).length =
        (NewMain.run_candidate_search b req.role_summary
          (NewMain.build_filter req.location req.rolelevel)).1.length := by
      simp [NewMain.buildCandidates]
    rw [hlen] at h20 ⊢
    omega

/-- Witness for C10: a backend whose merge produces 21 rows, so the full
count strictly exceeds the 20 returned candidates. -/
theorem search_response_truncation_witness :
    (∃ n cands skills,
      NewMain.search_candidates truncBackend (Except.ok []) reqTrunc =
        SearchResponse.matches "R2" n cands skills ∧
      cands.length ≤ 20 ∧
      n = (NewMain.run_candidate_search truncBackend "jd text"
        (NewMain.build_filter "bangalore" "senior")).1.length ∧
      (20 < n → cands.length = 20)) ∧
    (NewMain.run_candidate_search truncBackend "jd text"
      (NewMain.build_filter "bangalore" "senior")).1.length = 21 := by
  constructor
  · exact search_response_truncation truncBackend [] reqTrunc (by
      rw [show (NewMain.run_candidate_search truncBackend reqTrunc.role_summary
          (NewMain.build_filter reqTrunc.location reqTrunc.rolelevel)).1 =
          NewMain.mergeStep manyHits manyHits from rfl]
      have hmem : hitI 0 ∈ manyHits :=
        List.mem_map_of_mem hitI (List.mem_range.2 (by norm_num))
      exact mergeStep_ne_nil_of_mem (by simp [manyHits]) (by simp [manyHits])
        (mem_innerMerge.2 ⟨hitI 0, hmem, hitI 0, hmem, ⟨rfl, rfl, rfl⟩, rfl⟩))
  · rw [show (NewMain.run_candidate_search truncBackend "jd text"
        (NewMain.build_filter "bangalore" "senior")).1 =
        NewMain.mergeStep manyHits manyHits from rfl]
    rw [mergeStep_length (by simp [manyHits]) (by simp [manyHits])]
    decide
